import Mathlib

/-!
Shallow embedding of the expo-genie CLI's configuration/manifest store
(`src/utils/config.ts`, `src/utils/fs.ts`), its package-manager detection
(`src/utils/packageManager.ts`), the code generators' name/path logic
(`src/generators/base.ts`, `src/generators/ScreenGenerator.ts`) and the
add-feature regeneration predicate (`src/commands/add.ts`).

JavaScript objects used as string-keyed maps are modelled as association
lists with JS object semantics (assignment to an existing key keeps its
position, a new key is appended); the filesystem is modelled as explicit
state holding the per-project manifest files, the single global config
file and the set of other plain files.
-/

/-- `FeatureConfig` from `src/utils/config.ts`. -/
structure FeatureConfig where
  enabled : Bool
  version : String
  installedAt : String
  uiLibrary : String
  stateManagement : String
  files : List String
  dependencies : List String
deriving DecidableEq

/-- `ScreenConfig` from `src/utils/config.ts`. -/
structure ScreenConfig where
  type : String
  uiLibrary : String
  stateManagement : String
  createdAt : String
  filePath : String
deriving DecidableEq

/-- `ComponentConfig` from `src/utils/config.ts`. -/
structure ComponentConfig where
  type : String
  uiLibrary : String
  createdAt : String
  filePath : String
deriving DecidableEq

/-- The `preferences` sub-object of `ExpoGenieConfig`. -/
structure Preferences where
  packageManager : String
  autoInstall : Bool
  gitCommit : Bool
  typescript : Bool
  darkMode : Bool
deriving DecidableEq

/-- `ExpoGenieConfig` (the per-project manifest) from `src/utils/config.ts`.
The `uiLibrary`/`stateManagement` enums are erased to `String`, as they are
at the JavaScript runtime. -/
structure ExpoGenieConfig where
  version : String
  projectName : String
  template : Option String
  uiLibrary : String
  stateManagement : String
  features : List (String × FeatureConfig)
  preferences : Preferences
  screens : List (String × ScreenConfig)
  components : List (String × ComponentConfig)
deriving DecidableEq

/-- `GlobalConfig` from `src/utils/config.ts`. -/
structure GlobalConfig where
  defaultTemplate : String
  defaultPackageManager : String
  defaultUILibrary : String
  defaultStateManagement : String
  autoInstall : Bool
  gitCommit : Bool
  darkMode : Bool
  recentProjects : List String
deriving DecidableEq

/-- A possibly-incomplete `GlobalConfig`, as stored in the global config
JSON file: a field absent from the JSON object is `none`.  This is the
shape `Partial<GlobalConfig>` on the TypeScript side. -/
structure GlobalPatch where
  defaultTemplate : Option String := none
  defaultPackageManager : Option String := none
  defaultUILibrary : Option String := none
  defaultStateManagement : Option String := none
  autoInstall : Option Bool := none
  gitCommit : Option Bool := none
  darkMode : Option Bool := none
  recentProjects : Option (List String) := none
deriving DecidableEq

/-- `Partial<ExpoGenieConfig>` as passed to `config.updateProjectConfig`. -/
structure ProjectPatch where
  version : Option String := none
  projectName : Option String := none
  template : Option (Option String) := none
  uiLibrary : Option String := none
  stateManagement : Option String := none
  features : Option (List (String × FeatureConfig)) := none
  preferences : Option Preferences := none
  screens : Option (List (String × ScreenConfig)) := none
  components : Option (List (String × ComponentConfig)) := none
deriving DecidableEq

/-- JavaScript object spread `{ ...defaults, ...saved }` for the global
config: a present field of `saved` wins, an absent one keeps the default. -/
def applyGlobalPatch (base : GlobalConfig) (p : GlobalPatch) : GlobalConfig where
  defaultTemplate := p.defaultTemplate.getD base.defaultTemplate
  defaultPackageManager := p.defaultPackageManager.getD base.defaultPackageManager
  defaultUILibrary := p.defaultUILibrary.getD base.defaultUILibrary
  defaultStateManagement := p.defaultStateManagement.getD base.defaultStateManagement
  autoInstall := p.autoInstall.getD base.autoInstall
  gitCommit := p.gitCommit.getD base.gitCommit
  darkMode := p.darkMode.getD base.darkMode
  recentProjects := p.recentProjects.getD base.recentProjects

/-- A full `GlobalConfig` seen as the JSON object written to disk (every
field present). -/
def globalToPatch (g : GlobalConfig) : GlobalPatch where
  defaultTemplate := some g.defaultTemplate
  defaultPackageManager := some g.defaultPackageManager
  defaultUILibrary := some g.defaultUILibrary
  defaultStateManagement := some g.defaultStateManagement
  autoInstall := some g.autoInstall
  gitCommit := some g.gitCommit
  darkMode := some g.darkMode
  recentProjects := some g.recentProjects

/-- JavaScript object spread `{ ...existing, ...updates }` for the project
manifest (`config.updateProjectConfig`). -/
def applyProjectPatch (base : ExpoGenieConfig) (p : ProjectPatch) : ExpoGenieConfig where
  version := p.version.getD base.version
  projectName := p.projectName.getD base.projectName
  template := p.template.getD base.template
  uiLibrary := p.uiLibrary.getD base.uiLibrary
  stateManagement := p.stateManagement.getD base.stateManagement
  features := p.features.getD base.features
  preferences := p.preferences.getD base.preferences
  screens := p.screens.getD base.screens
  components := p.components.getD base.components

/-- Lookup in a JS-object-as-map (first binding of the key). -/
def lookupAssoc {α : Type} (l : List (String × α)) (k : String) : Option α :=
  match l with
  | [] => none
  | (k', v) :: rest => if k' = k then some v else lookupAssoc rest k

/-- JS object assignment `obj[k] = v`: replaces the value in place when the
key exists, appends a new binding otherwise. -/
def setAssoc {α : Type} (l : List (String × α)) (k : String) (v : α) : List (String × α) :=
  match l with
  | [] => [(k, v)]
  | (k', v') :: rest => if k' = k then (k, v) :: rest else (k', v') :: setAssoc rest k v

/-- `path.join(a, b)`. -/
def pathJoin (a b : String) : String := a ++ "/" ++ b

/-- `CONFIG_FILE_NAME` from `src/utils/config.ts`. -/
def configFileName : String := "expo-genie.json"

/-- The filesystem state visible to the configuration store: the manifest
files (keyed by their full path), the global config file under the user's
home directory, and the remaining plain files (lockfiles etc.), by path. -/
structure FileSystemState where
  manifests : List (String × ExpoGenieConfig)
  globalFile : Option GlobalPatch
  plainFiles : List String
deriving DecidableEq

/-- A filesystem with no manifest, no global config file and no other
files. -/
def emptyFileSystem : FileSystemState where
  manifests := []
  globalFile := none
  plainFiles := []

/-- `config.loadProjectConfig`: returns the parsed manifest at
`<projectPath>/expo-genie.json` when the file exists, `null` otherwise. -/
def loadProjectConfig (fs : FileSystemState) (projectPath : String) : Option ExpoGenieConfig :=
  lookupAssoc fs.manifests (pathJoin projectPath configFileName)

/-- `config.saveProjectConfig`: serializes and overwrites the manifest
file at `<projectPath>/expo-genie.json`. -/
def saveProjectConfig (fs : FileSystemState) (projectPath : String)
    (cfg : ExpoGenieConfig) : FileSystemState :=
  { fs with manifests := setAssoc fs.manifests (pathJoin projectPath configFileName) cfg }

/-- The built-in `defaults` of `config.loadGlobalConfig`. -/
def defaultGlobalConfig : GlobalConfig where
  defaultTemplate := "blank"
  defaultPackageManager := "npm"
  defaultUILibrary := "nativewind"
  defaultStateManagement := "zustand"
  autoInstall := true
  gitCommit := false
  darkMode := false
  recentProjects := []

/-- `config.loadGlobalConfig`: when the global config file exists, returns
`{ ...defaults, ...saved }`; otherwise returns the defaults.  It performs
no write, which the embedding reflects by not returning a filesystem. -/
def loadGlobalConfig (fs : FileSystemState) : GlobalConfig :=
  match fs.globalFile with
  | some saved => applyGlobalPatch defaultGlobalConfig saved
  | none => defaultGlobalConfig

/-- `config.saveGlobalConfig`: reads the existing global config (with
defaults), merges the partial update over it, and writes the full merged
object back. -/
def saveGlobalConfig (fs : FileSystemState) (p : GlobalPatch) : FileSystemState :=
  { fs with globalFile := some (globalToPatch (applyGlobalPatch (loadGlobalConfig fs) p)) }

/-- `config.updateProjectConfig`: load, merge the partial update over the
existing manifest, save; silently does nothing when no manifest exists. -/
def updateProjectConfig (fs : FileSystemState) (projectPath : String)
    (updates : ProjectPatch) : FileSystemState :=
  match loadProjectConfig fs projectPath with
  | some existing => saveProjectConfig fs projectPath (applyProjectPatch existing updates)
  | none => fs

/-- `config.addFeature`: load-mutate-save, setting
`features[featureName] = featureConfig`; no-op when no manifest exists. -/
def addFeature (fs : FileSystemState) (projectPath featureName : String)
    (featureConfig : FeatureConfig) : FileSystemState :=
  match loadProjectConfig fs projectPath with
  | some existing =>
      saveProjectConfig fs projectPath
        { existing with features := setAssoc existing.features featureName featureConfig }
  | none => fs

/-- `config.addScreen`: same shape as `addFeature`, on the `screens` map. -/
def addScreen (fs : FileSystemState) (projectPath screenName : String)
    (screenConfig : ScreenConfig) : FileSystemState :=
  match loadProjectConfig fs projectPath with
  | some existing =>
      saveProjectConfig fs projectPath
        { existing with screens := setAssoc existing.screens screenName screenConfig }
  | none => fs

/-- `config.addComponent`: same shape as `addFeature`, on the
`components` map. -/
def addComponent (fs : FileSystemState) (projectPath componentName : String)
    (componentConfig : ComponentConfig) : FileSystemState :=
  match loadProjectConfig fs projectPath with
  | some existing =>
      saveProjectConfig fs projectPath
        { existing with components := setAssoc existing.components componentName componentConfig }
  | none => fs

/-- `config.updateUILibrary`: `updateProjectConfig` with `{ uiLibrary }`. -/
def updateUILibrary (fs : FileSystemState) (projectPath uiLibrary : String) : FileSystemState :=
  updateProjectConfig fs projectPath { uiLibrary := some uiLibrary }

/-- `config.updateStateManagement`: `updateProjectConfig` with
`{ stateManagement }`. -/
def updateStateManagement (fs : FileSystemState) (projectPath stateManagement : String) :
    FileSystemState :=
  updateProjectConfig fs projectPath { stateManagement := some stateManagement }

/-- `config.addRecentProject`: load the global config, drop every entry
equal to the path, push the path at the front, pop the last entry when the
length exceeds 10, and save `{ recentProjects }`. -/
def addRecentProject (fs : FileSystemState) (projectPath : String) : FileSystemState :=
  let globalConfig := loadGlobalConfig fs
  let recentProjects := globalConfig.recentProjects.filter (fun p => p != projectPath)
  let recentProjects := projectPath :: recentProjects
  let recentProjects :=
    if recentProjects.length > 10 then recentProjects.dropLast else recentProjects
  saveGlobalConfig fs { recentProjects := some recentProjects }

/-- Existence of a plain (non-manifest, non-global-config) file, as used by
`fileSystem.fileExists` on lockfiles. -/
def plainFileExists (fs : FileSystemState) (p : String) : Bool :=
  fs.plainFiles.contains p

/-- The `lockFiles` table of `packageManager.detect`, in its declaration
order (the order `Object.entries` iterates string keys). -/
def lockFilesTable : List (String × String) :=
  [("package-lock.json", "npm"), ("yarn.lock", "yarn"),
   ("pnpm-lock.yaml", "pnpm"), ("bun.lockb", "bun")]

/-- `packageManager.detect`: returns the manager of the first lockfile of
the table that exists under `projectPath`, `npm` when none does. -/
def packageManagerDetect (fs : FileSystemState) (projectPath : String) : String :=
  match lockFilesTable.find? (fun e => plainFileExists fs (pathJoin projectPath e.1)) with
  | some e => e.2
  | none => "npm"

/-- The `needsRegeneration` predicate of `addCommand`
(`src/commands/add.ts`): the stored feature snapshot differs from the
project-wide current setting in its UI library or its state management. -/
def needsRegeneration (existingFeature : FeatureConfig)
    (currentUILibrary currentStateManagement : String) : Bool :=
  (existingFeature.uiLibrary != currentUILibrary) ||
    (existingFeature.stateManagement != currentStateManagement)

/-- The character class `[-_\s]` of `BaseGenerator.formatComponentName`
(`\s` restricted to its ASCII members). -/
def isNameSeparator (c : Char) : Bool :=
  c = '-' || c = '_' || c = ' ' || c = '\t' || c = '\n' || c = '\r' ||
    c = '\x0b' || c = '\x0c'

/-- `word.charAt(0).toUpperCase() + word.slice(1).toLowerCase()`. -/
def capitalizeWord (w : String) : String :=
  match w.data with
  | [] => ""
  | c :: cs => String.mk (c.toUpper :: cs.map Char.toLower)

/-- JavaScript `String.prototype.split` with a single-character separator
class: consecutive separators yield empty segments, as do leading and
trailing separators. -/
def splitSegments (p : Char → Bool) : List Char → List (List Char)
  | [] => [[]]
  | c :: cs =>
      match splitSegments p cs, p c with
      | rest, true => [] :: rest
      | [], false => [[c]]
      | seg :: segs, false => (c :: seg) :: segs

/-- `BaseGenerator.formatComponentName`: split on `-`, `_` and whitespace,
capitalize each segment, join. -/
def formatComponentName (name : String) : String :=
  String.join ((splitSegments isNameSeparator name.data).map
    (fun seg => capitalizeWord (String.mk seg)))

/-- `BaseGenerator.getFileExtension`: `tsx` in TypeScript mode, `jsx`
otherwise. -/
def getFileExtension (typescript : Bool) : String :=
  if typescript then "tsx" else "jsx"

/-- `BaseGenerator.formatFileName`: normalized component name plus the
extension. -/
def formatFileName (name : String) (typescript : Bool) : String :=
  formatComponentName name ++ "." ++ getFileExtension typescript

/-- `BaseGenerator.getFilePath`: `path.join(projectPath, directory ||
defaultDirectory, filename)`. -/
def getFilePath (projectPath : String) (directory : Option String)
    (defaultDirectory filename : String) : String :=
  pathJoin projectPath (pathJoin (directory.getD defaultDirectory) filename)

/-- JavaScript `String.prototype.endsWith`, as a suffix check on the
character lists. -/
def stringEndsWith (s suffix : String) : Bool :=
  List.isSuffixOf suffix.data s.data

/-- The screen name computed by `ScreenGenerator.generate`: the normalized
component name, with `Screen` appended when it does not already end in
`Screen`. -/
def screenGenerateName (name : String) : String :=
  let componentName := formatComponentName name
  if stringEndsWith componentName "Screen" then componentName else componentName ++ "Screen"

/-- The file name `ScreenGenerator.generate` passes to `writeFile`:
`formatFileName(screenName)`. -/
def screenGenerateFileName (name : String) (typescript : Bool) : String :=
  formatFileName (screenGenerateName name) typescript

/-- The full path of the file written by `ScreenGenerator.generate`
(default directory `src/screens` from `getDefaultDirectory`). -/
def screenGenerateFilePath (projectPath name : String) (directory : Option String)
    (typescript : Bool) : String :=
  getFilePath projectPath directory "src/screens" (screenGenerateFileName name typescript)

/-- Observation: the stored feature record under a name, read back through
`loadProjectConfig` (the manifest's `features[featureName]`). -/
def getFeatureRecord (fs : FileSystemState) (projectPath featureName : String) :
    Option FeatureConfig :=
  (loadProjectConfig fs projectPath).bind (fun m => lookupAssoc m.features featureName)

/-- Observation: the stored screen record under a name. -/
def getScreenRecord (fs : FileSystemState) (projectPath screenName : String) :
    Option ScreenConfig :=
  (loadProjectConfig fs projectPath).bind (fun m => lookupAssoc m.screens screenName)

/-- Observation: the stored component record under a name. -/
def getComponentRecord (fs : FileSystemState) (projectPath componentName : String) :
    Option ComponentConfig :=
  (loadProjectConfig fs projectPath).bind (fun m => lookupAssoc m.components componentName)

/-- The effect of one `addRecentProject` call on the stored
`recentProjects` list, written out without the intermediate `let`s. -/
def recentStep (rp : List String) (p : String) : List String :=
  if (p :: rp.filter (fun q => q != p)).length > 10
  then (p :: rp.filter (fun q => q != p)).dropLast
  else p :: rp.filter (fun q => q != p)

/-- Fixture: preferences as produced by `createDefaultConfig`. -/
def samplePreferences : Preferences where
  packageManager := "npm"
  autoInstall := true
  gitCommit := false
  typescript := true
  darkMode := false

/-- Fixture: a fresh manifest for a project named `demo`. -/
def sampleManifest : ExpoGenieConfig where
  version := "1.0.0"
  projectName := "demo"
  template := some "blank"
  uiLibrary := "nativewind"
  stateManagement := "zustand"
  features := []
  preferences := samplePreferences
  screens := []
  components := []

/-- Fixture: a filesystem whose only file is the manifest of `/proj`. -/
def fsWithManifest : FileSystemState :=
  saveProjectConfig emptyFileSystem "/proj" sampleManifest

/-- Fixture: a feature record as written by the add-feature flow. -/
def sampleFeatureConfig : FeatureConfig where
  enabled := true
  version := "1.0.0"
  installedAt := "2024-01-01T00:00:00.000Z"
  uiLibrary := "nativewind"
  stateManagement := "zustand"
  files := ["src/features/camera/screens/CameraScreen.tsx", "src/hooks/useCamera.ts"]
  dependencies := ["expo-camera", "expo-media-library"]

/-- Fixture: a second, entirely different feature record. -/
def sampleFeatureConfigB : FeatureConfig where
  enabled := false
  version := "2.0.0"
  installedAt := "2024-02-02T00:00:00.000Z"
  uiLibrary := "paper"
  stateManagement := "redux"
  files := []
  dependencies := []

/-- Fixture: a screen record. -/
def sampleScreenConfig : ScreenConfig where
  type := "blank"
  uiLibrary := "nativewind"
  stateManagement := "zustand"
  createdAt := "2024-01-01T00:00:00.000Z"
  filePath := "src/screens/HomeScreen.tsx"

/-- Fixture: a second screen record. -/
def sampleScreenConfigB : ScreenConfig where
  type := "list"
  uiLibrary := "paper"
  stateManagement := "redux"
  createdAt := "2024-02-02T00:00:00.000Z"
  filePath := "src/screens/ListScreen.tsx"

/-- Fixture: a component record. -/
def sampleComponentConfig : ComponentConfig where
  type := "button"
  uiLibrary := "nativewind"
  createdAt := "2024-01-01T00:00:00.000Z"
  filePath := "src/components/Button.tsx"

/-- Fixture: a second component record. -/
def sampleComponentConfigB : ComponentConfig where
  type := "card"
  uiLibrary := "paper"
  createdAt := "2024-02-02T00:00:00.000Z"
  filePath := "src/components/Card.tsx"

/-- Fixture: a feature record whose UI library matches the current project
setting but whose state management does not. -/
def staleStateFeature : FeatureConfig where
  enabled := true
  version := "1.0.0"
  installedAt := "2024-01-01T00:00:00.000Z"
  uiLibrary := "nativewind"
  stateManagement := "redux"
  files := []
  dependencies := []

/-- Fixture: a feature record generated under the `paper` UI library. -/
def paperFeature : FeatureConfig where
  enabled := true
  version := "1.0.0"
  installedAt := "2024-01-01T00:00:00.000Z"
  uiLibrary := "paper"
  stateManagement := "zustand"
  files := []
  dependencies := []

/-- Fixture: a global config file listing two recent projects. -/
def fsRecentTwo : FileSystemState where
  manifests := []
  globalFile := some { recentProjects := some ["/b", "/a"] }
  plainFiles := []

/-- Fixture: a full recent-projects list. -/
def tenProjects : List String :=
  ["/p1", "/p2", "/p3", "/p4", "/p5", "/p6", "/p7", "/p8", "/p9", "/p10"]

/-- Fixture: a global config file whose recent-projects list is full. -/
def fsRecentTen : FileSystemState where
  manifests := []
  globalFile := some { recentProjects := some tenProjects }
  plainFiles := []

/-- Fixture: a hand-written global config file missing most fields. -/
def partialGlobalFile : GlobalPatch where
  darkMode := some true
  defaultUILibrary := some "paper"

/-- Fixture: a filesystem holding only the partial global config file. -/
def fsPartialGlobal : FileSystemState where
  manifests := []
  globalFile := some partialGlobalFile
  plainFiles := []

/-- Reading back a key just assigned returns the assigned value. -/
theorem lookupAssoc_setAssoc_self {α : Type} (l : List (String × α)) (k : String) (v : α) :
    lookupAssoc (setAssoc l k v) k = some v := by
  induction l with
  | nil => simp [setAssoc, lookupAssoc]
  | cons hd tl ih =>
    obtain ⟨k', v'⟩ := hd
    by_cases h : k' = k
    · simp [setAssoc, lookupAssoc, h]
    · simp [setAssoc, lookupAssoc, h, ih]

/-- Merging a complete saved object over any base reproduces the saved
object (every field of the patch is present). -/
theorem applyGlobalPatch_globalToPatch (base g : GlobalConfig) :
    applyGlobalPatch base (globalToPatch g) = g := rfl

/-- A manifest just saved is the one loaded back. -/
theorem loadProjectConfig_saveProjectConfig (fs : FileSystemState) (p : String)
    (m : ExpoGenieConfig) : loadProjectConfig (saveProjectConfig fs p m) p = some m := by
  simp [loadProjectConfig, saveProjectConfig, lookupAssoc_setAssoc_self]

/-- Loading after `saveGlobalConfig` yields the merge of the partial
update over the previously loaded config. -/
theorem loadGlobalConfig_saveGlobalConfig (fs : FileSystemState) (p : GlobalPatch) :
    loadGlobalConfig (saveGlobalConfig fs p) = applyGlobalPatch (loadGlobalConfig fs) p := by
  simp [saveGlobalConfig, loadGlobalConfig, applyGlobalPatch_globalToPatch]

/-- `addRecentProject` transforms the stored recent-projects list by
`recentStep`. -/
theorem recentProjects_addRecentProject (fs : FileSystemState) (p : String) :
    (loadGlobalConfig (addRecentProject fs p)).recentProjects =
      recentStep (loadGlobalConfig fs).recentProjects p := by
  simp [addRecentProject, recentStep, loadGlobalConfig_saveGlobalConfig, applyGlobalPatch]

/-- One `recentStep` keeps the list duplicate-free. -/
theorem recentStep_nodup {rp : List String} (h : rp.Nodup) (p : String) :
    (recentStep rp p).Nodup := by
  have hp : p ∉ rp.filter (fun q => q != p) := by
    intro hmem
    have := List.of_mem_filter hmem
    simp at this
  have hcons : (p :: rp.filter (fun q => q != p)).Nodup :=
    List.nodup_cons.mpr ⟨hp, h.filter _⟩
  unfold recentStep
  by_cases hlen : (p :: rp.filter (fun q => q != p)).length > 10
  · rw [if_pos hlen]
    exact List.Nodup.sublist (List.dropLast_sublist _) hcons
  · rw [if_neg hlen]
    exact hcons

/-- One `recentStep` keeps the list at no more than 10 entries. -/
theorem recentStep_length_le {rp : List String} (h : rp.length ≤ 10) (p : String) :
    (recentStep rp p).length ≤ 10 := by
  have hf : (rp.filter (fun q => q != p)).length ≤ rp.length := List.length_filter_le _ _
  unfold recentStep
  by_cases hlen : (p :: rp.filter (fun q => q != p)).length > 10
  · rw [if_pos hlen, List.length_dropLast]
    simp only [List.length_cons] at hlen ⊢
    omega
  · rw [if_neg hlen]
    simp only [List.length_cons] at hlen ⊢
    omega

/-- The invariant of the global config's recent-projects list. -/
def recentOk (fs : FileSystemState) : Prop :=
  (loadGlobalConfig fs).recentProjects.length ≤ 10 ∧
    (loadGlobalConfig fs).recentProjects.Nodup

/-- `addRecentProject` preserves the recent-projects invariant. -/
theorem recentOk_addRecentProject {fs : FileSystemState} (h : recentOk fs) (p : String) :
    recentOk (addRecentProject fs p) := by
  unfold recentOk at h ⊢
  rw [recentProjects_addRecentProject]
  exact ⟨recentStep_length_le h.1 p, recentStep_nodup h.2 p⟩

/-- Folding any call sequence preserves the recent-projects invariant. -/
theorem recentOk_foldl (ps : List String) :
    ∀ fs : FileSystemState, recentOk fs → recentOk (List.foldl addRecentProject fs ps) := by
  induction ps with
  | nil => intro fs h; exact h
  | cons p ps ih => intro fs h; exact ih _ (recentOk_addRecentProject h p)

/-- Inserting a path already present: the list is rotated to put the path
first, and its length does not change. -/
theorem recentStep_of_mem {rp : List String} {p : String} (hmem : p ∈ rp) (hnd : rp.Nodup)
    (hlen : rp.length ≤ 10) :
    recentStep rp p = p :: rp.filter (fun q => q != p) ∧
      (recentStep rp p).length = rp.length := by
  have herase : rp.filter (fun q => q != p) = rp.erase p := (hnd.erase_eq_filter p).symm
  have hfl : (rp.filter (fun q => q != p)).length = rp.length - 1 := by
    rw [herase, List.length_erase_of_mem hmem]
  have hpos : 0 < rp.length := List.length_pos.mpr (List.ne_nil_of_mem hmem)
  have hnotbig : ¬ (p :: rp.filter (fun q => q != p)).length > 10 := by
    simp only [List.length_cons, hfl]
    omega
  constructor
  · unfold recentStep
    rw [if_neg hnotbig]
  · unfold recentStep
    rw [if_neg hnotbig]
    simp only [List.length_cons, hfl]
    omega

/-- Inserting a fresh path into a full list: the new path goes first and
the last (oldest) entry is dropped. -/
theorem recentStep_of_full {rp : List String} {p : String} (hlen : rp.length = 10)
    (hmem : p ∉ rp) : recentStep rp p = p :: rp.dropLast := by
  have hfil : rp.filter (fun q => q != p) = rp := by
    apply List.filter_eq_self.mpr
    intro a ha
    simp only [bne_iff_ne, ne_eq]
    intro hEq
    exact hmem (hEq ▸ ha)
  have hbig : (p :: rp.filter (fun q => q != p)).length > 10 := by
    simp only [List.length_cons, hfil, hlen]
    omega
  unfold recentStep
  rw [if_pos hbig, hfil]
  match rp, hlen with
  | (a :: b :: l), _ => rfl

/-- C1: saving a `ProjectManifest` at a project path and loading it back
returns exactly the saved manifest, and saving a full `GlobalConfig` and
reloading it returns the same value. -/
theorem c1_round_trip_save_load (fs : FileSystemState) (p : String) (m : ExpoGenieConfig)
    (g : GlobalConfig) :
    loadProjectConfig (saveProjectConfig fs p m) p = some m ∧
    loadGlobalConfig (saveGlobalConfig fs (globalToPatch g)) = g := by
  refine ⟨loadProjectConfig_saveProjectConfig fs p m, ?_⟩
  rw [loadGlobalConfig_saveGlobalConfig, applyGlobalPatch_globalToPatch]

/-- C2: after any sequence of `addRecentProject` calls starting from an
empty global config, `recentProjects` has at most 10 entries and no
duplicate path; inserting a path already present puts it at index 0
without changing the length; inserting a fresh path into a full list of
10 keeps the length at 10, puts the new path at index 0 and evicts the
oldest (last) entry. -/
theorem c2_recent_projects_invariant :
    (∀ ps : List String,
      (loadGlobalConfig (List.foldl addRecentProject emptyFileSystem ps)).recentProjects.length
          ≤ 10 ∧
      (loadGlobalConfig (List.foldl addRecentProject emptyFileSystem ps)).recentProjects.Nodup) ∧
    (∀ (fs : FileSystemState) (p : String),
      p ∈ (loadGlobalConfig fs).recentProjects →
      (loadGlobalConfig fs).recentProjects.Nodup →
      (loadGlobalConfig fs).recentProjects.length ≤ 10 →
      (loadGlobalConfig (addRecentProject fs p)).recentProjects.head? = some p ∧
      (loadGlobalConfig (addRecentProject fs p)).recentProjects.length =
        (loadGlobalConfig fs).recentProjects.length) ∧
    (∀ (fs : FileSystemState) (p : String),
      (loadGlobalConfig fs).recentProjects.length = 10 →
      p ∉ (loadGlobalConfig fs).recentProjects →
      (loadGlobalConfig (addRecentProject fs p)).recentProjects =
        p :: (loadGlobalConfig fs).recentProjects.dropLast ∧
      (loadGlobalConfig (addRecentProject fs p)).recentProjects.length = 10) := by
  refine ⟨?_, ?_, ?_⟩
  · intro ps
    exact recentOk_foldl ps emptyFileSystem (by constructor <;> simp [loadGlobalConfig, emptyFileSystem, defaultGlobalConfig])
  · intro fs p hmem hnd hlen
    obtain ⟨hstep, hsteplen⟩ := recentStep_of_mem hmem hnd hlen
    rw [recentProjects_addRecentProject, hstep]
    refine ⟨rfl, ?_⟩
    rw [← hstep, hsteplen]
  · intro fs p hlen hmem
    rw [recentProjects_addRecentProject, recentStep_of_full hlen hmem]
    refine ⟨rfl, ?_⟩
    simp only [List.length_cons, List.length_dropLast, hlen]

/-- C2 witness: concrete runs of `addRecentProject` exercising the
move-to-front and the eviction branches. -/
theorem c2_recent_projects_invariant_witness :
    ((loadGlobalConfig (addRecentProject fsRecentTwo "/a")).recentProjects.head? = some "/a" ∧
     (loadGlobalConfig (addRecentProject fsRecentTwo "/a")).recentProjects.length =
       (loadGlobalConfig fsRecentTwo).recentProjects.length) ∧
    ((loadGlobalConfig (addRecentProject fsRecentTen "/z")).recentProjects =
       "/z" :: (loadGlobalConfig fsRecentTen).recentProjects.dropLast ∧
     (loadGlobalConfig (addRecentProject fsRecentTen "/z")).recentProjects.length = 10) :=
  ⟨c2_recent_projects_invariant.2.1 fsRecentTwo "/a" (by decide) (by decide) (by decide),
   c2_recent_projects_invariant.2.2 fsRecentTen "/z" (by decide) (by decide)⟩

/-- C3: at a project path with no manifest file, `addFeature`, `addScreen`
and `addComponent` return normally and leave the filesystem completely
unchanged (no write at all). -/
theorem c3_absent_manifest_noop (fs : FileSystemState) (p fn sn cn : String)
    (fc : FeatureConfig) (sc : ScreenConfig) (cc : ComponentConfig)
    (h : loadProjectConfig fs p = none) :
    addFeature fs p fn fc = fs ∧ addScreen fs p sn sc = fs ∧ addComponent fs p cn cc = fs := by
  refine ⟨?_, ?_, ?_⟩ <;> simp [addFeature, addScreen, addComponent, h]

/-- C3 witness: the empty filesystem has no manifest at `/proj`, and the
three mutating calls leave it untouched. -/
theorem c3_absent_manifest_noop_witness :
    loadProjectConfig emptyFileSystem "/proj" = none ∧
    (addFeature emptyFileSystem "/proj" "camera" sampleFeatureConfig = emptyFileSystem ∧
     addScreen emptyFileSystem "/proj" "home" sampleScreenConfig = emptyFileSystem ∧
     addComponent emptyFileSystem "/proj" "button" sampleComponentConfig = emptyFileSystem) :=
  ⟨by decide,
   c3_absent_manifest_noop emptyFileSystem "/proj" "camera" "home" "button"
     sampleFeatureConfig sampleScreenConfig sampleComponentConfig (by decide)⟩

/-- With an existing manifest, `addFeature` is a save of the manifest with
the features map updated. -/
theorem addFeature_eq (fs : FileSystemState) (p n : String) (fc : FeatureConfig)
    (m : ExpoGenieConfig) (h : loadProjectConfig fs p = some m) :
    addFeature fs p n fc =
      saveProjectConfig fs p { m with features := setAssoc m.features n fc } := by
  unfold addFeature
  rw [h]

/-- With an existing manifest, `addScreen` is a save of the manifest with
the screens map updated. -/
theorem addScreen_eq (fs : FileSystemState) (p n : String) (sc : ScreenConfig)
    (m : ExpoGenieConfig) (h : loadProjectConfig fs p = some m) :
    addScreen fs p n sc =
      saveProjectConfig fs p { m with screens := setAssoc m.screens n sc } := by
  unfold addScreen
  rw [h]

/-- With an existing manifest, `addComponent` is a save of the manifest
with the components map updated. -/
theorem addComponent_eq (fs : FileSystemState) (p n : String) (cc : ComponentConfig)
    (m : ExpoGenieConfig) (h : loadProjectConfig fs p = some m) :
    addComponent fs p n cc =
      saveProjectConfig fs p { m with components := setAssoc m.components n cc } := by
  unfold addComponent
  rw [h]

/-- C4: with an existing manifest, adding a record under a name and then
adding a second record under the same name leaves exactly the second
record stored (full replace, no merge), for features, screens and
components alike. -/
theorem c4_full_replace (fs : FileSystemState) (p : String) (m : ExpoGenieConfig)
    (fn sn cn : String) (fa fb : FeatureConfig) (sa sb : ScreenConfig)
    (ca cb : ComponentConfig) (h : loadProjectConfig fs p = some m) :
    getFeatureRecord (addFeature (addFeature fs p fn fa) p fn fb) p fn = some fb ∧
    getScreenRecord (addScreen (addScreen fs p sn sa) p sn sb) p sn = some sb ∧
    getComponentRecord (addComponent (addComponent fs p cn ca) p cn cb) p cn = some cb := by
  refine ⟨?_, ?_, ?_⟩
  · rw [addFeature_eq fs p fn fa m h,
      addFeature_eq _ p fn fb _ (loadProjectConfig_saveProjectConfig fs p _)]
    unfold getFeatureRecord
    rw [loadProjectConfig_saveProjectConfig]
    simp [lookupAssoc_setAssoc_self]
  · rw [addScreen_eq fs p sn sa m h,
      addScreen_eq _ p sn sb _ (loadProjectConfig_saveProjectConfig fs p _)]
    unfold getScreenRecord
    rw [loadProjectConfig_saveProjectConfig]
    simp [lookupAssoc_setAssoc_self]
  · rw [addComponent_eq fs p cn ca m h,
      addComponent_eq _ p cn cb _ (loadProjectConfig_saveProjectConfig fs p _)]
    unfold getComponentRecord
    rw [loadProjectConfig_saveProjectConfig]
    simp [lookupAssoc_setAssoc_self]

/-- C4 witness: two successive adds of distinct records under the same
name on a concrete manifest leave exactly the second record. -/
theorem c4_full_replace_witness :
    getFeatureRecord (addFeature (addFeature fsWithManifest "/proj" "auth" sampleFeatureConfig)
        "/proj" "auth" sampleFeatureConfigB) "/proj" "auth" = some sampleFeatureConfigB ∧
    getScreenRecord (addScreen (addScreen fsWithManifest "/proj" "home" sampleScreenConfig)
        "/proj" "home" sampleScreenConfigB) "/proj" "home" = some sampleScreenConfigB ∧
    getComponentRecord (addComponent (addComponent fsWithManifest "/proj" "button"
        sampleComponentConfig) "/proj" "button" sampleComponentConfigB) "/proj" "button" =
      some sampleComponentConfigB :=
  c4_full_replace fsWithManifest "/proj" sampleManifest "auth" "home" "button"
    sampleFeatureConfig sampleFeatureConfigB sampleScreenConfig sampleScreenConfigB
    sampleComponentConfig sampleComponentConfigB (by decide)

/-- C5: on an existing manifest, `updateUILibrary` changes only the
`uiLibrary` field and `updateStateManagement` only the `stateManagement`
field; every other manifest field, including every entry of the features,
screens and components maps, is unchanged. -/
theorem c5_update_touches_only_field (fs : FileSystemState) (p lib sm : String)
    (m : ExpoGenieConfig) (h : loadProjectConfig fs p = some m) :
    loadProjectConfig (updateUILibrary fs p lib) p = some { m with uiLibrary := lib } ∧
    loadProjectConfig (updateStateManagement fs p sm) p =
      some { m with stateManagement := sm } := by
  constructor
  · have : applyProjectPatch m { uiLibrary := some lib } = { m with uiLibrary := lib } := rfl
    simp [updateUILibrary, updateProjectConfig, h, this, loadProjectConfig_saveProjectConfig]
  · have : applyProjectPatch m { stateManagement := some sm } =
        { m with stateManagement := sm } := rfl
    simp [updateStateManagement, updateProjectConfig, h, this,
      loadProjectConfig_saveProjectConfig]

/-- C5 witness: the concrete manifest with only its preference field
rewritten. -/
theorem c5_update_touches_only_field_witness :
    loadProjectConfig (updateUILibrary fsWithManifest "/proj" "paper") "/proj" =
      some { sampleManifest with uiLibrary := "paper" } ∧
    loadProjectConfig (updateStateManagement fsWithManifest "/proj" "redux") "/proj" =
      some { sampleManifest with stateManagement := "redux" } :=
  c5_update_touches_only_field fsWithManifest "/proj" "paper" "redux" sampleManifest (by decide)

/-- C6 counterexample: a feature record whose UI library equals the
manifest's current one but whose state management differs makes the
"needs regeneration" predicate true, where the claim requires false. -/
theorem c6_counterexample :
    staleStateFeature.uiLibrary = "nativewind" ∧
    needsRegeneration staleStateFeature "nativewind" "zustand" = true := by
  refine ⟨by decide, by decide⟩

/-- C6 (amended): the predicate is true whenever the record's UI library
differs from the current one; when the UI libraries are equal it is false
exactly when the state-management snapshots are also equal. -/
theorem c6_needs_regeneration (fc : FeatureConfig) (curUI curSM : String) :
    (fc.uiLibrary ≠ curUI → needsRegeneration fc curUI curSM = true) ∧
    (needsRegeneration fc curUI curSM = false ↔
      fc.uiLibrary = curUI ∧ fc.stateManagement = curSM) := by
  constructor
  · intro h
    simp [needsRegeneration, h]
  · simp [needsRegeneration]

/-- C6 witness: a record generated under `paper` against a current
`nativewind` manifest triggers regeneration. -/
theorem c6_needs_regeneration_witness :
    paperFeature.uiLibrary ≠ "nativewind" ∧
    needsRegeneration paperFeature "nativewind" "zustand" = true :=
  ⟨by decide, (c6_needs_regeneration paperFeature "nativewind" "zustand").1 (by decide)⟩

/-- C7 counterexample: generating a screen named `profile` with TypeScript
mode on and no explicit directory writes `Profilescreen.tsx`, not the
`Profile.tsx` the claim states: `generate` appends `Screen` to the
PascalCase name and then re-normalizes the file name, lowercasing the
tail. -/
theorem c7_counterexample :
    screenGenerateFilePath "/app" "profile" none true = "/app/src/screens/Profilescreen.tsx" ∧
    screenGenerateFilePath "/app" "profile" none true ≠ "/app/src/screens/Profile.tsx" := by
  refine ⟨by decide, by decide⟩

/-- C7 (amended): the screen generator writes `profile` to
`<project>/src/screens/Profilescreen.tsx` with TypeScript mode on and to
`<project>/src/screens/Profilescreen.jsx` with it off; in general the
path is `<directory>/<normalized Screen-suffixed name>.<ext>` with the
extension determined solely by the TypeScript flag. -/
theorem c7_screen_path (projectPath name : String) (directory : Option String) :
    screenGenerateFilePath "/app" "profile" none true =
      "/app/src/screens/Profilescreen.tsx" ∧
    screenGenerateFilePath "/app" "profile" none false =
      "/app/src/screens/Profilescreen.jsx" ∧
    (∀ ts : Bool, screenGenerateFilePath projectPath name directory ts =
      pathJoin projectPath (pathJoin (directory.getD "src/screens")
        (formatComponentName (screenGenerateName name) ++ "." ++
          (if ts then "tsx" else "jsx")))) := by
  refine ⟨by decide, by decide, fun ts => rfl⟩

/-- C8: `formatComponentName` normalizes free-form names to PascalCase:
the three cited inputs all map to `MyAwesomeComponent`. -/
theorem c8_format_component_name :
    formatComponentName "my-awesome_component" = "MyAwesomeComponent" ∧
    formatComponentName "My Awesome Component" = "MyAwesomeComponent" ∧
    formatComponentName "my_awesome-component" = "MyAwesomeComponent" := by
  refine ⟨by decide, by decide, by decide⟩

/-- C9: package-manager detection follows lockfile presence in the fixed
declaration order `package-lock.json` → npm, `yarn.lock` → yarn,
`pnpm-lock.yaml` → pnpm, `bun.lockb` → bun, defaulting to npm, with the
first match winning when several lockfiles are present. -/
theorem c9_detect_lockfiles (fs : FileSystemState) (p : String) :
    packageManagerDetect fs p =
      if plainFileExists fs (pathJoin p "package-lock.json") then "npm"
      else if plainFileExists fs (pathJoin p "yarn.lock") then "yarn"
      else if plainFileExists fs (pathJoin p "pnpm-lock.yaml") then "pnpm"
      else if plainFileExists fs (pathJoin p "bun.lockb") then "bun"
      else "npm" := by
  cases h1 : plainFileExists fs (pathJoin p "package-lock.json") <;>
  cases h2 : plainFileExists fs (pathJoin p "yarn.lock") <;>
  cases h3 : plainFileExists fs (pathJoin p "pnpm-lock.yaml") <;>
  cases h4 : plainFileExists fs (pathJoin p "bun.lockb") <;>
  simp [packageManagerDetect, lockFilesTable, List.find?, h1, h2, h3, h4]

/-- C10: `loadGlobalConfig` always returns a fully populated config: the
built-in defaults when the file is absent (performing no write — in this
embedding it does not even produce a filesystem), and otherwise the saved
fields merged over those defaults, each missing field taking its
default. -/
theorem c10_load_global_defaults (fs : FileSystemState) :
    (fs.globalFile = none → loadGlobalConfig fs = defaultGlobalConfig) ∧
    (∀ saved : GlobalPatch, fs.globalFile = some saved →
      loadGlobalConfig fs =
        { defaultTemplate := saved.defaultTemplate.getD "blank",
          defaultPackageManager := saved.defaultPackageManager.getD "npm",
          defaultUILibrary := saved.defaultUILibrary.getD "nativewind",
          defaultStateManagement := saved.defaultStateManagement.getD "zustand",
          autoInstall := saved.autoInstall.getD true,
          gitCommit := saved.gitCommit.getD false,
          darkMode := saved.darkMode.getD false,
          recentProjects := saved.recentProjects.getD [] }) := by
  constructor
  · intro h
    simp [loadGlobalConfig, h]
  · intro saved h
    simp [loadGlobalConfig, h, applyGlobalPatch, defaultGlobalConfig]

/-- C10 witness: the absent-file case yields the defaults, and a file with
only `darkMode` and `defaultUILibrary` set takes the defaults for every
other field. -/
theorem c10_load_global_defaults_witness :
    loadGlobalConfig emptyFileSystem = defaultGlobalConfig ∧
    loadGlobalConfig fsPartialGlobal =
      { defaultTemplate := partialGlobalFile.defaultTemplate.getD "blank",
        defaultPackageManager := partialGlobalFile.defaultPackageManager.getD "npm",
        defaultUILibrary := partialGlobalFile.defaultUILibrary.getD "nativewind",
        defaultStateManagement := partialGlobalFile.defaultStateManagement.getD "zustand",
        autoInstall := partialGlobalFile.autoInstall.getD true,
        gitCommit := partialGlobalFile.gitCommit.getD false,
        darkMode := partialGlobalFile.darkMode.getD false,
        recentProjects := partialGlobalFile.recentProjects.getD [] } :=
  ⟨(c10_load_global_defaults emptyFileSystem).1 rfl,
   (c10_load_global_defaults fsPartialGlobal).2 partialGlobalFile rfl⟩
